import Mathlib

/-!
Shallow embedding of the sentient-Climate Telegram weather bot
(src/bot.js, src/api/bot.js) and proofs about its specification.

JS strings are modelled as Lean `String`; the JS string operations the
source uses (`toLowerCase`, `startsWith`, `includes`, `trim`,
`split`, `join`, regex stripping of the leading command token) are
implemented below by structural recursion over the character list so
that every definition is executable and kernel-reducible.  JS numbers
are modelled as `Int` (no claim here depends on fractional values);
JS truthiness of a possibly-absent number (`if (x)`) is false exactly
for an absent field and for the value 0.
-/

/-- Whitespace test used to model the `\s` class and `trim` of the
source regexes on the ASCII range actually exercised by the bot. -/
def wsChar (c : Char) : Bool := c = ' ' || c = '\t' || c = '\n' || c = '\r'

/-- ASCII lower-casing of one character, modelling `toLowerCase` on the
ASCII range relevant to the `/weather`, `weather` and `/w ` checks. -/
def lowerAscii (c : Char) : Char :=
  if 'A' ≤ c && c ≤ 'Z' then Char.ofNat (c.toNat + 32) else c

/-- Model of `text.toLowerCase()`. -/
def jsToLower (s : String) : String := ⟨s.data.map lowerAscii⟩

/-- Model of `s.startsWith(pat)`. -/
def jsStartsWith (s pat : String) : Bool := pat.data.isPrefixOf s.data

/-- Model of `s.includes(pat)` for non-empty `pat`. -/
def jsIncludes (s pat : String) : Bool :=
  s.data.tails.any (fun t => pat.data.isPrefixOf t)

/-- Splitting a character list at every character satisfying `p`,
modelling `String.prototype.split` with a character-class separator.
The result is always non-empty and delimiters are consumed. -/
def splitChars (p : Char → Bool) : List Char → List (List Char)
  | [] => [[]]
  | c :: cs =>
    match splitChars p cs with
    | [] => [[]]
    | h :: t => if p c then [] :: h :: t else (c :: h) :: t

/-- Model of `s.split(sep)` where `sep` matches single characters. -/
def jsSplit (p : Char → Bool) (s : String) : List String :=
  (splitChars p s.data).map (fun l => ⟨l⟩)

/-- Removal of trailing whitespace from a character list. -/
def trimEndChars (l : List Char) : List Char :=
  (l.reverse.dropWhile wsChar).reverse

/-- Removal of leading and trailing whitespace from a character list. -/
def trimChars (l : List Char) : List Char :=
  trimEndChars (l.dropWhile wsChar)

/-- Model of `s.trim()`. -/
def jsTrim (s : String) : String := ⟨trimChars s.data⟩

/-- Interleaving a separator between character lists, the model of
`Array.prototype.join` after splitting. -/
def joinChars (sep : List Char) : List (List Char) → List Char
  | [] => []
  | [x] => x
  | x :: xs => x ++ sep ++ joinChars sep xs

/-- Model of `parts.join(sep)` on a list of strings. -/
def jsJoin (sep : String) (l : List String) : String :=
  ⟨joinChars sep.data (l.map String.data)⟩

/-- JS truthiness of a possibly-absent number: `undefined` and `0` are
falsy, every other number is truthy. -/
def jsTruthyNum : Option Int → Bool
  | none => false
  | some n => n != 0

/-- JS truthiness of `xs && xs.length > 0` / `xs?.length` on a
possibly-absent array. -/
def jsTruthyList {α : Type} : Option (List α) → Bool
  | none => false
  | some l => l.length != 0

/-- Shape of `current_weather` in the zod schema `WeatherInfo`
(src/bot.js lines 16-23). -/
structure WeatherInfo where
  location : String
  current_temp : Option Int
  condition : String
  humidity : Option Int
  wind_speed : Option Int
  recommendations : Option (List String)
deriving DecidableEq

/-- Shape of one forecast entry in the zod schema `WeatherForecast`
(src/bot.js lines 25-30). -/
structure WeatherForecast where
  date : String
  high_temp : Int
  low_temp : Int
  condition : String
deriving DecidableEq

/-- Shape of the root object in the zod schema `Output`
(src/bot.js lines 32-37). -/
structure Output where
  current_weather : WeatherInfo
  forecast : Option (List WeatherForecast)
  clothing_suggestions : Option (List String)
  activity_recommendations : Option (List String)
deriving DecidableEq

/-- Value-level checks of the zod schema `WeatherInfo`:
`location: z.string().min(1)`, `humidity: z.number().int().min(0).max(100).optional()`,
`wind_speed: z.number().nonnegative().optional()`.  Field presence and
typing are enforced by the `WeatherInfo` structure itself. -/
def WeatherInfo.valid (w : WeatherInfo) : Bool :=
  decide (1 ≤ w.location.data.length) &&
  (match w.humidity with
   | none => true
   | some h => decide (0 ≤ h) && decide (h ≤ 100)) &&
  (match w.wind_speed with
   | none => true
   | some v => decide (0 ≤ v))

/-- Value-level checks of the zod schema `Output`:
`forecast: z.array(WeatherForecast).min(1).max(7).optional()` plus the
nested `WeatherInfo` checks. -/
def Output.valid (o : Output) : Bool :=
  o.current_weather.valid &&
  (match o.forecast with
   | none => true
   | some f => decide (1 ≤ f.length) && decide (f.length ≤ 7))

/-- Spec-side statement of the §3 invariants, written from the spec
text for comparison with the zod schema: non-empty location; forecast,
if present, has between 1 and 7 entries; humidity, if present, lies in
[0,100]; wind_speed, if present, is ≥ 0. -/
def specValidReport (o : Output) : Prop :=
  o.current_weather.location ≠ "" ∧
  (∀ f, o.forecast = some f → 1 ≤ f.length ∧ f.length ≤ 7) ∧
  (∀ h, o.current_weather.humidity = some h → 0 ≤ h ∧ h ≤ 100) ∧
  (∀ v, o.current_weather.wind_speed = some v → 0 ≤ v)

/-- Rendering of one forecast entry, the template
`day.date: day.high_temp°/day.low_temp° - day.condition` shared by the
summary preview, the 3-day view and the full-forecast view. -/
def renderForecastDay (day : WeatherForecast) : String :=
  day.date ++ ": " ++ toString day.high_temp ++ "°/" ++ toString day.low_temp
    ++ "° - " ++ day.condition ++ "\n"

/-- Header line of `formatWeatherMessage` (src/bot.js line 101). -/
def headerLine (cw : WeatherInfo) : String :=
  "🌤️ **Weather for " ++ cw.location ++ "**\n\n"

/-- Temperature line of `formatWeatherMessage`: the source guards it
with JS truthiness `if (current_weather.current_temp)` (line 105). -/
def tempFrag (cw : WeatherInfo) : String :=
  match cw.current_temp with
  | some t => if t != 0 then "Temperature: " ++ toString t ++ "°C\n" else ""
  | none => ""

/-- Condition line of `formatWeatherMessage`, appended
unconditionally (line 108). -/
def conditionFrag (cw : WeatherInfo) : String :=
  "Condition: " ++ cw.condition ++ "\n"

/-- Humidity line, guarded by `if (current_weather.humidity)`
(line 110). -/
def humidityFrag (cw : WeatherInfo) : String :=
  match cw.humidity with
  | some h => if h != 0 then "💧 Humidity: " ++ toString h ++ "%\n" else ""
  | none => ""

/-- Wind line, guarded by `if (current_weather.wind_speed)`
(line 114). -/
def windFrag (cw : WeatherInfo) : String :=
  match cw.wind_speed with
  | some v => if v != 0 then "💨 Wind Speed: " ++ toString v ++ " km/h\n" else ""
  | none => ""

/-- Forecast preview section, guarded by
`if (forecast && forecast.length > 0)` and limited to
`forecast.slice(0, 3)` (lines 119-124). -/
def forecastFrag : Option (List WeatherForecast) → String
  | some f =>
    if f.length != 0 then
      "\n📅 **Forecast (next 3 days):**\n"
        ++ String.join ((f.take 3).map renderForecastDay)
    else ""
  | none => ""

/-- Bulleted rendering `• item` per line used by the clothing,
activity and tips sections. -/
def bulletList (items : List String) : String :=
  String.join (items.map (fun i => "• " ++ i ++ "\n"))

/-- Clothing section, guarded by a non-empty-list check
(lines 127-132). -/
def clothingFrag : Option (List String) → String
  | some l => if l.length != 0 then "\n👕 **What to wear:**\n" ++ bulletList l else ""
  | none => ""

/-- Activity section, guarded by a non-empty-list check
(lines 135-140). -/
def activityFrag : Option (List String) → String
  | some l => if l.length != 0 then "\n🎯 **Activity suggestions:**\n" ++ bulletList l else ""
  | none => ""

/-- Tips section from `current_weather.recommendations`
(lines 143-151). -/
def tipsFrag (cw : WeatherInfo) : String :=
  match cw.recommendations with
  | some l => if l.length != 0 then "\n💡 **Tips:**\n" ++ bulletList l else ""
  | none => ""

/-- Model of `formatWeatherMessage` (src/bot.js lines 93-154): the
message is the concatenation, in source order, of the header, the
current-conditions block, and the four optional sections. -/
def formatWeatherMessage (weatherData : Output) : String :=
  headerLine weatherData.current_weather
    ++ "🌡️ **Current Conditions:**\n"
    ++ tempFrag weatherData.current_weather
    ++ conditionFrag weatherData.current_weather
    ++ humidityFrag weatherData.current_weather
    ++ windFrag weatherData.current_weather
    ++ forecastFrag weatherData.forecast
    ++ clothingFrag weatherData.clothing_suggestions
    ++ activityFrag weatherData.activity_recommendations
    ++ tipsFrag weatherData.current_weather

/-- Delimiter class `[,;|]` of `parseWeatherCommand`. -/
def isDelim (c : Char) : Bool := c = ',' || c = ';' || c = '|'

/-- Model of the source's anchored case-insensitive regex replace on
`text`: when the text starts with the 8-character token `/weather`
case-insensitively, the token and every whitespace character after it
are removed (the regex consumes the greedy whitespace run). -/
def stripWeatherToken (text : String) : String :=
  if jsStartsWith (jsToLower text) "/weather" then
    ⟨(text.data.drop 8).dropWhile wsChar⟩
  else text

/-- Model of `parseWeatherCommand` (src/bot.js lines 157-163). -/
def parseWeatherCommand (text : String) : String × String :=
  let cleanText := jsTrim (stripWeatherToken text)
  let parts := jsSplit isDelim cleanText
  let location := jsTrim (parts.headD "")
  let preferences := jsTrim (jsJoin " " (parts.drop 1))
  (location, preferences)

/-- Spec-side restatement of §4.5, written from the spec text: strip a
leading `/weather` token (case-insensitive, optional trailing
whitespace) if present; split the remainder on comma, semicolon or
pipe; the trimmed first segment is the location; the remaining
segments are rejoined with single spaces and trimmed. -/
def parseWeatherCommandSpec (text : String) : String × String :=
  let remainder :=
    if ((jsToLower text).data.take 8) = "/weather".data then
      ⟨(text.data.drop 8).dropWhile wsChar⟩
    else text
  let segments := jsSplit (fun c => [',', ';', '|'].contains c) (jsTrim remainder)
  (jsTrim (segments.headD ""), jsTrim (jsJoin " " (segments.drop 1)))

/-- Fixed instruction text of the `getWeatherInfo` prompt template up
to the `Location:` interpolation point (src/bot.js lines 49-71). -/
def promptHead : String :=
  "\nYou are Weather Assistant AI. Given the user’s location and preferences,\nprovide current weather information and helpful recommendations.\n\nReturn ONLY valid JSON that matches this shape:\n\x7b\n\"current_weather\": \x7b\n\"location\": string,\n\"current_temp\"?: number,\n\"condition\": string,\n\"humidity\"?: number,\n\"wind_speed\"?: number,\n\"recommendations\"?: string[]\n\x7d,\n\"forecast\"?: [\n\x7b\"date\": string, \"high_temp\": number, \"low_temp\": number, \"condition\": string\x7d\n],\n\"clothing_suggestions\"?: string[],\n\"activity_recommendations\"?: string[]\n\x7d\n\nDo not include extra keys or prose. Output JSON only\nLocation: "

/-- Prompt template of `getWeatherInfo` (src/bot.js lines 49-74): the
instruction text with the location and preferences interpolated at the
`Location:` and `Preferences:` lines. -/
def buildPrompt (location preferences : String) : String :=
  promptHead ++ location ++ "\nPreferences: " ++ preferences ++ "\nDate: today\n"

/-- Failure modes of the model fetch: the dispatcher's catch blocks do
not inspect which one occurred. -/
inductive FetchError
  | schemaViolation
  | generationFailure
deriving DecidableEq

/-- Observable actions of a handler run, in the order the source
performs them: a chat action, an invocation of `getWeatherInfo` (the
Model Client), an outbound message with its inline keyboard (label and
callback_data per button), or the callback acknowledgement. -/
inductive Effect
  | chatAction (action : String)
  | fetchWeather (location preferences : String)
  | sendMessage (text : String) (buttons : List (String × String))
  | answerCallback
deriving DecidableEq

/-- Recognition test of the message handler (src/bot.js lines 172-176):
lowercased text starts with `/weather`, or contains `weather`, or
starts with `/w` and a space. -/
def recognizedWeather (text : String) : Bool :=
  jsStartsWith (jsToLower text) "/weather" ||
  jsIncludes (jsToLower text) "weather" ||
  jsStartsWith (jsToLower text) "/w "

/-- Usage-hint message sent on an empty parsed location
(src/bot.js lines 182-185). -/
def usageHint : String :=
  "🌤️ Please provide a location!\n\nExamples:\n• /weather New York\n• /weather London, outdoor activities\n• /weather Tokyo, running"

/-- Apology sent when the fetch fails on the message path
(src/bot.js lines 210-213). -/
def apologyMessage : String :=
  "❌ Sorry, I couldn\x27t get weather information right now. Please try again."

/-- Apology sent when the fetch fails on the callback path
(src/bot.js line 289). -/
def callbackApology : String :=
  "❌ Could not fetch info for that option."

/-- Inline keyboard attached to the weather summary
(src/bot.js lines 194-201): six buttons whose callback_data is the
action name joined to the location with an underscore. -/
def weatherButtons (location : String) : List (String × String) :=
  [("🌤 Today", "today_" ++ location),
   ("📅 Tomorrow", "tomorrow_" ++ location),
   ("🔮 3 Days", "3days_" ++ location),
   ("🧥 Clothing Tips", "clothes_" ++ location),
   ("🎯 Activities", "activities_" ++ location),
   ("📊 Full Forecast", "forecast_" ++ location)]

/-- Model of the `message` handler (src/bot.js lines 165-220).  The
external `getWeatherInfo` outcome is supplied as the function `fetch`;
the try/catch around the fetch is the `Except` match, so a fetch
failure yields the apology message instead of escaping. -/
def handleMessage (fetch : String → String → Except FetchError Output)
    (text : String) : List Effect :=
  if recognizedWeather text then
    Effect.chatAction "typing" ::
    (let parsed := parseWeatherCommand text
     if parsed.1 = "" then
       [Effect.sendMessage usageHint []]
     else
       Effect.fetchWeather parsed.1 parsed.2 ::
       (match fetch parsed.1 parsed.2 with
        | .ok weatherData =>
          [Effect.sendMessage (formatWeatherMessage weatherData) (weatherButtons parsed.1)]
        | .error _ => [Effect.sendMessage apologyMessage []]))
  else []

/-- Callback-payload decoding of src/bot.js lines 229-230:
`const [action, ...locParts] = data.split("_")` followed by
`locParts.join("_")` — the split is undone for everything after the
first underscore. -/
def decodeBot (data : String) : String × String :=
  let parts := jsSplit (fun c => c = '_') data
  (parts.headD "", jsJoin "_" (parts.drop 1))

/-- Callback-payload decoding of src/api/bot.js line 215:
`const [action, location] = data.split("_")` — only the second
underscore-separated segment becomes the location (a payload with no
underscore leaves it undefined, modelled as the empty string). -/
def decodeApi (data : String) : String × String :=
  let parts := jsSplit (fun c => c = '_') data
  (parts.headD "", parts.getD 1 "")

/-- Callback-payload encoding used by both handler variants when
building the buttons: the template `action_location`. -/
def encodeCb (action location : String) : String :=
  action ++ "_" ++ location

/-- Optional-chaining index `forecast?.[i]`. -/
def optIndex {α : Type} (o : Option (List α)) (i : Nat) : Option α :=
  match o with
  | none => none
  | some l => l[i]?

/-- Message of the `today` callback action (src/bot.js line 240). -/
def todayMessage (location : String) (day : WeatherForecast) : String :=
  "🌤️ *Today\x27s Forecast for " ++ location ++ ":*\nHigh: " ++ toString day.high_temp
    ++ "°C\nLow: " ++ toString day.low_temp ++ "°C\nCondition: " ++ day.condition

/-- Message of the `tomorrow` callback action (src/bot.js line 249). -/
def tomorrowMessage (location : String) (day : WeatherForecast) : String :=
  "📅 *Tomorrow\x27s Forecast for " ++ location ++ ":*\nHigh: " ++ toString day.high_temp
    ++ "°C\nLow: " ++ toString day.low_temp ++ "°C\nCondition: " ++ day.condition

/-- Message of the `3days` callback action (src/bot.js lines 256-259). -/
def threeDayMessage (location : String) (days : List WeatherForecast) : String :=
  "🔮 *3-Day Forecast for " ++ location ++ ":*\n\n" ++ String.join (days.map renderForecastDay)

/-- Message of the `clothes` callback action (src/bot.js lines 264-267). -/
def clothingMessage (location : String) (items : List String) : String :=
  "🧥 *Clothing Tips for " ++ location ++ ":*\n\n" ++ bulletList items

/-- Message of the `activities` callback action (src/bot.js lines 272-275). -/
def activitiesMessage (location : String) (items : List String) : String :=
  "🎯 *Activity Suggestions for " ++ location ++ ":*\n\n" ++ bulletList items

/-- Message of the `forecast` callback action (src/bot.js lines 280-283):
the full-forecast renderer, iterating over every forecast entry. -/
def fullForecastMessage (location : String) (f : List WeatherForecast) : String :=
  "📊 *Full Forecast for " ++ location ++ ":*\n\n" ++ String.join (f.map renderForecastDay)

/-- Action dispatch of the `callback_query` handler: the try/catch
around the fetch (the `Except` match) and the if/else chain on the
action (src/bot.js lines 232-290).  An unknown action, or an action
whose data is absent, sends nothing. -/
def callbackDispatch (action location : String) :
    Except FetchError Output → List Effect
  | .error _ => [Effect.sendMessage callbackApology []]
  | .ok weatherData =>
    if action = "today" then
      match optIndex weatherData.forecast 0 with
      | some day => [Effect.sendMessage (todayMessage location day) []]
      | none => []
    else if action = "tomorrow" then
      match optIndex weatherData.forecast 1 with
      | some day => [Effect.sendMessage (tomorrowMessage location day) []]
      | none => []
    else if action = "3days" then
      match weatherData.forecast.map (fun f => f.take 3) with
      | some next3 =>
        if next3.length != 0 then [Effect.sendMessage (threeDayMessage location next3) []]
        else []
      | none => []
    else if action = "clothes" then
      if jsTruthyList weatherData.clothing_suggestions then
        [Effect.sendMessage (clothingMessage location (weatherData.clothing_suggestions.getD [])) []]
      else []
    else if action = "activities" then
      if jsTruthyList weatherData.activity_recommendations then
        [Effect.sendMessage (activitiesMessage location (weatherData.activity_recommendations.getD [])) []]
      else []
    else if action = "forecast" then
      if jsTruthyList weatherData.forecast then
        [Effect.sendMessage (fullForecastMessage location (weatherData.forecast.getD [])) []]
      else []
    else []

/-- Model of the `callback_query` handler (src/bot.js lines 223-291):
acknowledge, decode the payload, re-fetch with the default (empty)
preferences argument of `getWeatherInfo`, then dispatch on the action;
a fetch failure yields the callback apology. -/
def handleCallback (fetch : String → String → Except FetchError Output)
    (data : String) : List Effect :=
  Effect.answerCallback ::
  Effect.fetchWeather (decodeBot data).2 "" ::
  callbackDispatch (decodeBot data).1 (decodeBot data).2 (fetch (decodeBot data).2 "")

/-- Test whether an effect is one of the two fixed apology messages. -/
def isApologyEffect : Effect → Bool
  | .sendMessage t _ => t == apologyMessage || t == callbackApology
  | _ => false

/-- Count of apology messages among a handler run's effects. -/
def apologyCount (effects : List Effect) : Nat :=
  (effects.filter isApologyEffect).length

/-- Test whether an effect is an outbound chat message. -/
def isSendEffect : Effect → Bool
  | .sendMessage _ _ => true
  | _ => false

/-- Count of outbound chat messages among a handler run's effects. -/
def sendCount (effects : List Effect) : Nat :=
  (effects.filter isSendEffect).length

/-- Lines of a rendered message, split at every newline. -/
def messageLines (s : String) : List String :=
  (splitChars (fun c => c = '\n') s.data).map (fun l => ⟨l⟩)

/-- Non-empty lines of a rendered message. -/
def nonEmptyLines (s : String) : List String :=
  (messageLines s).filter (fun l => l != "")

/-- Report whose optional numeric fields are all present with value 0,
exercising the JS-truthiness guards of the formatter. -/
def zeroReport : Output :=
  { current_weather :=
      { location := "Oslo", current_temp := some 0, condition := "Sunny",
        humidity := some 0, wind_speed := some 0, recommendations := none },
    forecast := none, clothing_suggestions := none,
    activity_recommendations := none }

/-- Valid report with every optional field absent. -/
def minimalReport : Output :=
  { current_weather :=
      { location := "Paris", current_temp := none, condition := "Clear",
        humidity := none, wind_speed := none, recommendations := none },
    forecast := none, clothing_suggestions := none,
    activity_recommendations := none }

/-- Candidate rejected by the schema: humidity out of range. -/
def badHumidityReport : Output :=
  { current_weather :=
      { location := "Lagos", current_temp := some 30, condition := "Hot",
        humidity := some 150, wind_speed := none, recommendations := none },
    forecast := none, clothing_suggestions := none,
    activity_recommendations := none }

/-- Candidate rejected by the schema: forecast with 0 entries. -/
def emptyForecastReport : Output :=
  { current_weather :=
      { location := "Lagos", current_temp := some 30, condition := "Hot",
        humidity := some 40, wind_speed := some 5, recommendations := none },
    forecast := some [], clothing_suggestions := none,
    activity_recommendations := none }

/-- Candidate rejected by the schema on both grounds at once. -/
def badBothReport : Output :=
  { current_weather :=
      { location := "Lagos", current_temp := some 30, condition := "Hot",
        humidity := some 150, wind_speed := some 5, recommendations := none },
    forecast := some [], clothing_suggestions := none,
    activity_recommendations := none }

/-- Valid report with a 5-entry forecast. -/
def fiveDayReport : Output :=
  { current_weather :=
      { location := "Kyoto", current_temp := some 21, condition := "Mild",
        humidity := some 55, wind_speed := some 8, recommendations := none },
    forecast := some
      [{ date := "Mon", high_temp := 22, low_temp := 14, condition := "Sunny" },
       { date := "Tue", high_temp := 20, low_temp := 13, condition := "Cloudy" },
       { date := "Wed", high_temp := 19, low_temp := 12, condition := "Rain" },
       { date := "Thu", high_temp := 23, low_temp := 15, condition := "Sunny" },
       { date := "Fri", high_temp := 24, low_temp := 16, condition := "Clear" }],
    clothing_suggestions := none, activity_recommendations := none }

/-! ## Basic facts about the string model -/

theorem string_mk_data (s : String) : String.mk s.data = s :=
  String.ext rfl

theorem string_eq_empty_iff (s : String) : s = "" ↔ s.data = [] :=
  ⟨fun h => by rw [h], fun h => String.ext (by rw [h])⟩

theorem str_append_assoc (a b c : String) : a ++ b ++ c = a ++ (b ++ c) :=
  String.ext (by simp [String.data_append])

theorem str_empty_append (s : String) : "" ++ s = s :=
  String.ext (by simp [String.data_append])

theorem str_append_empty (s : String) : s ++ "" = s :=
  String.ext (by simp [String.data_append])

theorem str_left_ne_empty (s t : String) (hs : s ≠ "") : s ++ t ≠ "" := by
  intro h
  rw [string_eq_empty_iff, String.data_append, List.append_eq_nil] at h
  exact hs ((string_eq_empty_iff s).mpr h.1)

theorem jsStartsWith_iff (s pat : String) :
    jsStartsWith s pat = true ↔ pat.data <+: s.data := by
  simp [jsStartsWith, List.isPrefixOf_iff_prefix]

theorem splitChars_ne_nil (p : Char → Bool) (l : List Char) :
    splitChars p l ≠ [] := by
  cases l with
  | nil => simp [splitChars]
  | cons c cs =>
    rw [splitChars]
    rcases hsp : splitChars p cs with _ | ⟨h, t⟩
    · simp
    · dsimp only
      split <;> simp

theorem splitChars_cons (p : Char → Bool) (c : Char) (cs : List Char) :
    splitChars p (c :: cs) =
      if p c then [] :: splitChars p cs
      else (c :: (splitChars p cs).headD []) :: (splitChars p cs).tail := by
  rcases hsp : splitChars p cs with _ | ⟨h, t⟩
  · exact absurd hsp (splitChars_ne_nil p cs)
  · rw [splitChars, hsp]
    dsimp only
    split <;> simp

theorem splitChars_append_of_no_delim (p : Char → Bool) (xs ys : List Char)
    (hxs : ∀ c ∈ xs, p c = false) :
    splitChars p (xs ++ ys) =
      (xs ++ (splitChars p ys).headD []) :: (splitChars p ys).tail := by
  induction xs with
  | nil =>
    rcases hsp : splitChars p ys with _ | ⟨h, t⟩
    · exact absurd hsp (splitChars_ne_nil p ys)
    · simp [hsp]
  | cons c cs ih =>
    have hc : p c = false := hxs c (by simp)
    have hcs : ∀ x ∈ cs, p x = false := fun x hx => hxs x (by simp [hx])
    rw [List.cons_append, splitChars_cons, if_neg (by simp [hc]), ih hcs]
    simp

theorem splitChars_of_no_delim (p : Char → Bool) (xs : List Char)
    (hxs : ∀ c ∈ xs, p c = false) :
    splitChars p xs = [xs] := by
  have h := splitChars_append_of_no_delim p xs [] hxs
  simpa [splitChars] using h

theorem splitChars_headD (p : Char → Bool) (l : List Char) :
    (splitChars p l).headD [] = l.takeWhile (fun c => !p c) := by
  induction l with
  | nil => rfl
  | cons c cs ih =>
    rw [splitChars_cons]
    by_cases hc : p c
    · simp [hc, List.takeWhile_cons]
    · simp only [Bool.not_eq_true] at hc
      rw [if_neg (by simp [hc])]
      simp only [List.headD_eq_head?] at ih
      simp [List.takeWhile_cons, hc, ih]

theorem joinChars_splitChars (sep : Char) (l : List Char) :
    joinChars [sep] (splitChars (fun c => c = sep) l) = l := by
  induction l with
  | nil => rfl
  | cons c cs ih =>
    rw [splitChars_cons]
    rcases hsp : splitChars (fun c => c = sep) cs with _ | ⟨h, t⟩
    · exact absurd hsp (splitChars_ne_nil _ cs)
    · rw [hsp] at ih
      by_cases hc : c = sep
      · rw [if_pos (by simp [hc])]
        simp only [joinChars] at ih ⊢
        cases t <;> simp_all [joinChars]
      · rw [if_neg (by simp [hc])]
        simp only [List.headD_cons, List.tail_cons]
        cases t with
        | nil => simp_all [joinChars]
        | cons y t2 => simp_all [joinChars]

theorem trimEndChars_cons (a : Char) (l : List Char) (ha : wsChar a = false) :
    trimEndChars (a :: l) = a :: trimEndChars l := by
  unfold trimEndChars
  rw [List.reverse_cons, List.dropWhile_append]
  rcases h : l.reverse.dropWhile wsChar with _ | ⟨x, xs⟩
  · simp [List.dropWhile, ha]
  · simp [h]

theorem trimChars_cons (a : Char) (l : List Char) (ha : wsChar a = false) :
    trimChars (a :: l) = a :: trimEndChars l := by
  unfold trimChars
  rw [List.dropWhile_cons, if_neg (by simp [ha])]
  exact trimEndChars_cons a l ha

theorem underscore_data : ("_" : String).data = ['_'] := rfl

theorem encodeCb_data (action location : String) :
    (encodeCb action location).data = action.data ++ '_' :: location.data := by
  simp [encodeCb, String.data_append, underscore_data]

theorem decodeBot_encodeCb (action location : String)
    (h : ∀ c ∈ action.data, c ≠ '_') :
    decodeBot (encodeCb action location) = (action, location) := by
  have hm : ∀ c ∈ action.data, ((fun c => decide (c = '_')) c) = false := by
    intro c hc
    simpa using h c hc
  have hsplit : splitChars (fun c => decide (c = '_')) (encodeCb action location).data
      = action.data :: splitChars (fun c => decide (c = '_')) location.data := by
    rw [encodeCb_data, splitChars_append_of_no_delim _ _ _ hm, splitChars_cons,
      if_pos (by simp)]
    simp
  unfold decodeBot jsSplit
  rw [hsplit]
  simp only [List.map_cons, List.headD_cons, List.drop_succ_cons, List.drop_zero]
  rw [Prod.mk.injEq]
  constructor
  · exact string_mk_data action
  · unfold jsJoin
    rw [underscore_data, List.map_map]
    have hdm : (String.data ∘ fun l => (⟨l⟩ : String)) = id := rfl
    rw [hdm, List.map_id, joinChars_splitChars]

theorem decodeApi_encodeCb (action location : String)
    (ha : ∀ c ∈ action.data, c ≠ '_') (hl : ∀ c ∈ location.data, c ≠ '_') :
    decodeApi (encodeCb action location) = (action, location) := by
  have hm : ∀ c ∈ action.data, ((fun c => decide (c = '_')) c) = false := by
    intro c hc
    simpa using ha c hc
  have hloc : splitChars (fun c => decide (c = '_')) location.data = [location.data] := by
    refine splitChars_of_no_delim _ _ ?_
    intro c hc
    simpa using hl c hc
  have hsplit : splitChars (fun c => decide (c = '_')) (encodeCb action location).data
      = [action.data, location.data] := by
    rw [encodeCb_data, splitChars_append_of_no_delim _ _ _ hm, splitChars_cons,
      if_pos (by simp), hloc]
    simp
  unfold decodeApi jsSplit
  rw [hsplit]
  simp [string_mk_data, List.getD]

/-- Claim C1 (corrected): in the src/bot.js handler the decode rejoins
everything after the first underscore, so encoding then decoding
recovers the action and the full untruncated location for every action
without an underscore, locations with spaces or underscores included;
the payload `today_New York` decodes correctly in both handler
variants; but in the src/api/bot.js variant the location is cut at its
first underscore, so the round trip there holds only for locations
without underscores. -/
theorem callbackRoundtrip_amended :
    (∀ action location : String, (∀ c ∈ action.data, c ≠ '_') →
      decodeBot (encodeCb action location) = (action, location))
  ∧ (∀ action location : String, (∀ c ∈ action.data, c ≠ '_') →
      (∀ c ∈ location.data, c ≠ '_') →
      decodeApi (encodeCb action location) = (action, location))
  ∧ decodeBot (encodeCb "today" "New York") = ("today", "New York")
  ∧ decodeApi (encodeCb "today" "New York") = ("today", "New York") := by
  refine ⟨decodeBot_encodeCb, decodeApi_encodeCb, ?_, ?_⟩ <;> decide

/-- Claim C1, counterexample: the src/api/bot.js callback handler
truncates the location `New_York` to `New`, so the round trip does not
hold in every handler variant. -/
theorem callbackRoundtrip_counterexample :
    decodeApi (encodeCb "today" "New_York") = ("today", "New")
    ∧ ("New" : String) ≠ "New_York" := by
  decide

/-- Witness for `callbackRoundtrip_amended` at a concrete action and a
location containing an underscore. -/
theorem callbackRoundtrip_witness :
    decodeBot (encodeCb "forecast" "San_Francisco") = ("forecast", "San_Francisco") :=
  callbackRoundtrip_amended.1 "forecast" "San_Francisco" (by decide)

theorem line3_ne_empty (a b c : String) (ha : a ≠ "") : a ++ b ++ c ≠ "" :=
  str_left_ne_empty _ _ (str_left_ne_empty _ _ ha)

/-- Right-associated view of `formatWeatherMessage`. -/
theorem formatWeatherMessage_assoc (w : Output) :
    formatWeatherMessage w =
      headerLine w.current_weather ++ ("🌡️ **Current Conditions:**\n"
        ++ (tempFrag w.current_weather ++ (conditionFrag w.current_weather
        ++ (humidityFrag w.current_weather ++ (windFrag w.current_weather
        ++ (forecastFrag w.forecast ++ (clothingFrag w.clothing_suggestions
        ++ (activityFrag w.activity_recommendations ++ tipsFrag w.current_weather)))))))) := by
  simp [formatWeatherMessage, str_append_assoc]

/-- Claim C2 (corrected): the temperature, humidity and wind lines of
the current-conditions block follow JS truthiness, not presence: each
line is emitted exactly when its field is present with a non-zero
value, and a present-but-zero value is rendered like an absent one. -/
theorem formatTruthyLines (w : Output) :
    (tempFrag w.current_weather = "" ↔
      w.current_weather.current_temp = none ∨ w.current_weather.current_temp = some 0)
  ∧ (humidityFrag w.current_weather = "" ↔
      w.current_weather.humidity = none ∨ w.current_weather.humidity = some 0)
  ∧ (windFrag w.current_weather = "" ↔
      w.current_weather.wind_speed = none ∨ w.current_weather.wind_speed = some 0)
  ∧ (∀ t : Int, w.current_weather.current_temp = some t → t ≠ 0 →
      tempFrag w.current_weather = "Temperature: " ++ toString t ++ "°C\n")
  ∧ (∀ h : Int, w.current_weather.humidity = some h → h ≠ 0 →
      humidityFrag w.current_weather = "💧 Humidity: " ++ toString h ++ "%\n")
  ∧ (∀ v : Int, w.current_weather.wind_speed = some v → v ≠ 0 →
      windFrag w.current_weather = "💨 Wind Speed: " ++ toString v ++ " km/h\n")
  ∧ formatWeatherMessage w =
      headerLine w.current_weather ++ "🌡️ **Current Conditions:**\n"
        ++ tempFrag w.current_weather ++ conditionFrag w.current_weather
        ++ humidityFrag w.current_weather ++ windFrag w.current_weather
        ++ forecastFrag w.forecast ++ clothingFrag w.clothing_suggestions
        ++ activityFrag w.activity_recommendations ++ tipsFrag w.current_weather := by
  refine ⟨?_, ?_, ?_, ?_, ?_, ?_, rfl⟩
  · rcases hc : w.current_weather.current_temp with _ | t
    · simp [tempFrag, hc]
    · by_cases ht : t = 0
      · simp [tempFrag, hc, ht]
      · simp only [tempFrag, hc]
        rw [if_pos (by simpa using ht)]
        simp [ht]
        exact line3_ne_empty "Temperature: " (toString t) "°C\n" (by decide)
  · rcases hc : w.current_weather.humidity with _ | h
    · simp [humidityFrag, hc]
    · by_cases hh : h = 0
      · simp [humidityFrag, hc, hh]
      · simp only [humidityFrag, hc]
        rw [if_pos (by simpa using hh)]
        simp [hh]
        exact line3_ne_empty "💧 Humidity: " (toString h) "%\n" (by decide)
  · rcases hc : w.current_weather.wind_speed with _ | v
    · simp [windFrag, hc]
    · by_cases hv : v = 0
      · simp [windFrag, hc, hv]
      · simp only [windFrag, hc]
        rw [if_pos (by simpa using hv)]
        simp [hv]
        exact line3_ne_empty "💨 Wind Speed: " (toString v) " km/h\n" (by decide)
  · intro t ht hne
    simp only [tempFrag, ht]
    rw [if_pos (by simpa using hne)]
  · intro h hh hne
    simp only [humidityFrag, hh]
    rw [if_pos (by simpa using hne)]
  · intro v hv hne
    simp only [windFrag, hv]
    rw [if_pos (by simpa using hne)]

/-- Claim C2, counterexample: in `zeroReport` the fields current_temp,
humidity and wind_speed are all present with value 0, yet none of the
three lines appears in the formatted summary. -/
theorem truthyZero_counterexample :
    zeroReport.current_weather.current_temp = some 0
  ∧ zeroReport.current_weather.humidity = some 0
  ∧ zeroReport.current_weather.wind_speed = some 0
  ∧ formatWeatherMessage zeroReport =
      "🌤️ **Weather for Oslo**\n\n🌡️ **Current Conditions:**\nCondition: Sunny\n"
  ∧ jsIncludes (formatWeatherMessage zeroReport) "Temperature" = false
  ∧ jsIncludes (formatWeatherMessage zeroReport) "Humidity" = false
  ∧ jsIncludes (formatWeatherMessage zeroReport) "Wind" = false := by
  decide

/-- Witness for `formatTruthyLines` at a report with a present,
non-zero temperature. -/
theorem formatTruthyLines_witness :
    fiveDayReport.current_weather.current_temp = some 21
    ∧ tempFrag fiveDayReport.current_weather = "Temperature: " ++ toString (21 : Int) ++ "°C\n" :=
  ⟨rfl, (formatTruthyLines fiveDayReport).2.2.2.1 21 rfl (by decide)⟩

/-- Claim C3 (corrected): every formatted summary starts with the
location header and contains the condition line, but a third non-empty
line — the static current-conditions block heading — is also present
in every summary; for a valid report with every optional field absent
the output consists of exactly these three non-empty lines. -/
theorem guaranteedLines (w : Output) :
    (∃ r, formatWeatherMessage w = headerLine w.current_weather ++ r)
  ∧ (∃ q, formatWeatherMessage w =
      headerLine w.current_weather ++ "🌡️ **Current Conditions:**\n" ++ q)
  ∧ (∃ p q, formatWeatherMessage w = p ++ conditionFrag w.current_weather ++ q)
  ∧ nonEmptyLines (formatWeatherMessage minimalReport)
      = ["🌤️ **Weather for Paris**", "🌡️ **Current Conditions:**", "Condition: Clear"] := by
  refine ⟨⟨"🌡️ **Current Conditions:**\n"
      ++ (tempFrag w.current_weather ++ (conditionFrag w.current_weather
      ++ (humidityFrag w.current_weather ++ (windFrag w.current_weather
      ++ (forecastFrag w.forecast ++ (clothingFrag w.clothing_suggestions
      ++ (activityFrag w.activity_recommendations ++ tipsFrag w.current_weather))))))),
      formatWeatherMessage_assoc w⟩,
    ⟨tempFrag w.current_weather ++ (conditionFrag w.current_weather
      ++ (humidityFrag w.current_weather ++ (windFrag w.current_weather
      ++ (forecastFrag w.forecast ++ (clothingFrag w.clothing_suggestions
      ++ (activityFrag w.activity_recommendations ++ tipsFrag w.current_weather)))))), ?_⟩,
    ⟨headerLine w.current_weather ++ "🌡️ **Current Conditions:**\n"
      ++ tempFrag w.current_weather,
      humidityFrag w.current_weather ++ (windFrag w.current_weather
      ++ (forecastFrag w.forecast ++ (clothingFrag w.clothing_suggestions
      ++ (activityFrag w.activity_recommendations ++ tipsFrag w.current_weather)))), ?_⟩,
    by decide⟩
  · simp [formatWeatherMessage, str_append_assoc]
  · simp [formatWeatherMessage, str_append_assoc]

/-- Claim C3, counterexample: for the valid all-optional-absent report
the formatted summary has three non-empty lines, and the third one
(the static current-conditions heading) differs from both the location
header and the condition line, so the two claimed lines are not the
only guaranteed content. -/
theorem guaranteedLines_counterexample :
    Output.valid minimalReport = true
  ∧ minimalReport.forecast = none
  ∧ minimalReport.clothing_suggestions = none
  ∧ minimalReport.activity_recommendations = none
  ∧ minimalReport.current_weather.current_temp = none
  ∧ minimalReport.current_weather.humidity = none
  ∧ minimalReport.current_weather.wind_speed = none
  ∧ minimalReport.current_weather.recommendations = none
  ∧ nonEmptyLines (formatWeatherMessage minimalReport)
      = ["🌤️ **Weather for Paris**", "🌡️ **Current Conditions:**", "Condition: Clear"]
  ∧ ("🌡️ **Current Conditions:**" : String) ≠ "🌤️ **Weather for Paris**"
  ∧ ("🌡️ **Current Conditions:**" : String) ≠ "Condition: Clear" := by
  decide

/-- Claim C4 (confirmed): `parseWeatherCommand` behaves exactly as
§4.5 describes — strip one leading case-insensitive `/weather` token
with its trailing whitespace, split on comma/semicolon/pipe, trim the
first segment into the location, rejoin and trim the rest into the
preferences — and the two spec examples evaluate as stated. -/
theorem parseCommand_matches_spec :
    (∀ text, parseWeatherCommand text = parseWeatherCommandSpec text)
  ∧ parseWeatherCommand "/weather Paris" = ("Paris", "")
  ∧ parseWeatherCommand "/weather Tokyo, outdoor sports" = ("Tokyo", "outdoor sports") := by
  refine ⟨?_, by decide, by decide⟩
  intro text
  have hdelim : (fun c => [',', ';', '|'].contains c) = isDelim := by
    funext c
    rw [Bool.eq_iff_iff]
    simp [isDelim, List.contains, or_assoc]
  have hcond : (((jsToLower text).data.take 8) = "/weather".data) ↔
      (jsStartsWith (jsToLower text) "/weather" = true) := by
    rw [jsStartsWith_iff, List.prefix_iff_eq_take]
    have hlen : ("/weather".data).length = 8 := rfl
    rw [hlen]
    exact eq_comm
  unfold parseWeatherCommand parseWeatherCommandSpec stripWeatherToken
  rw [hdelim]
  by_cases h : jsStartsWith (jsToLower text) "/weather" = true
  · rw [if_pos h, if_pos (hcond.mpr h)]
  · rw [if_neg h, if_neg (fun hc => h (hcond.mp hc))]

/-- Claim C6 (confirmed): on well-typed candidates the zod schema
accepts exactly the §3 invariants — non-empty location, forecast
length in [1,7] when present, humidity in [0,100] when present,
non-negative wind speed when present — and it rejects a humidity of
150, a 0-entry forecast, and a candidate violating both at once. -/
theorem schemaValidation_matches_spec :
    (∀ o : Output, Output.valid o = true ↔ specValidReport o)
  ∧ Output.valid badHumidityReport = false
  ∧ Output.valid emptyForecastReport = false
  ∧ Output.valid badBothReport = false := by
  refine ⟨?_, by decide, by decide, by decide⟩
  intro o
  rcases o with ⟨⟨loc, ct, cond, hum, ws, recs⟩, fc, cloth, act⟩
  have hloc : ((1 : Nat) ≤ loc.data.length) ↔ loc ≠ "" := by
    constructor
    · intro h he
      rw [he] at h
      exact absurd h (by decide)
    · intro h
      rcases hl : loc.data with _ | ⟨c, cs⟩
      · exact absurd ((string_eq_empty_iff loc).mpr hl) h
      · simp [hl]
  unfold Output.valid WeatherInfo.valid specValidReport
  cases hum <;> cases ws <;> cases fc <;>
    simp [Bool.and_eq_true, decide_eq_true_eq, hloc] <;> tauto

/-- Claim C7 (confirmed): whenever a recognized weather message parses
to an empty location the handler sends the usage hint and stops — the
Model Client is never invoked — and `/weather` followed by blanks is
such a message. -/
theorem emptyLocationGuidance :
    (∀ (fetch : String → String → Except FetchError Output) (text : String),
      recognizedWeather text = true → (parseWeatherCommand text).1 = "" →
      handleMessage fetch text = [Effect.chatAction "typing", Effect.sendMessage usageHint []]
      ∧ ∀ l p, Effect.fetchWeather l p ∉ handleMessage fetch text)
  ∧ parseWeatherCommand "/weather   " = ("", "")
  ∧ recognizedWeather "/weather   " = true := by
  refine ⟨?_, by decide, by decide⟩
  intro fetch text hrec hloc
  have heq : handleMessage fetch text =
      [Effect.chatAction "typing", Effect.sendMessage usageHint []] := by
    simp [handleMessage, hrec, hloc]
  refine ⟨heq, ?_⟩
  intro l p hmem
  rw [heq] at hmem
  simp at hmem

/-- Witness for `emptyLocationGuidance` at the spec example input. -/
theorem emptyLocationGuidance_witness :
    handleMessage (fun _ _ => Except.error FetchError.generationFailure) "/weather   "
      = [Effect.chatAction "typing", Effect.sendMessage usageHint []] :=
  (emptyLocationGuidance.1 (fun _ _ => Except.error FetchError.generationFailure)
    "/weather   " (by decide) (by decide)).1

/-- Claim C5 (confirmed): when the fetch fails, the message path (on a
recognized command with a non-empty location) and the callback path
each send exactly one message, and that message is the apology; the
two failure kinds produce identical behaviour on both paths, and the
handlers stay total — the failure never escapes. -/
theorem singleApologyOnFailure :
    (∀ (e : FetchError) (text : String),
      recognizedWeather text = true → (parseWeatherCommand text).1 ≠ "" →
      apologyCount (handleMessage (fun _ _ => Except.error e) text) = 1
      ∧ sendCount (handleMessage (fun _ _ => Except.error e) text) = 1)
  ∧ (∀ (e : FetchError) (data : String),
      apologyCount (handleCallback (fun _ _ => Except.error e) data) = 1
      ∧ sendCount (handleCallback (fun _ _ => Except.error e) data) = 1)
  ∧ (∀ text, handleMessage (fun _ _ => Except.error FetchError.schemaViolation) text
      = handleMessage (fun _ _ => Except.error FetchError.generationFailure) text)
  ∧ (∀ data, handleCallback (fun _ _ => Except.error FetchError.schemaViolation) data
      = handleCallback (fun _ _ => Except.error FetchError.generationFailure) data) := by
  refine ⟨?_, ?_, ?_, ?_⟩
  · intro e text hrec hloc
    have heq : handleMessage (fun _ _ => Except.error e) text =
        [Effect.chatAction "typing",
         Effect.fetchWeather (parseWeatherCommand text).1 (parseWeatherCommand text).2,
         Effect.sendMessage apologyMessage []] := by
      simp [handleMessage, hrec, hloc]
    rw [heq]
    constructor <;> simp [apologyCount, sendCount, isApologyEffect, isSendEffect]
  · intro e data
    have heq : handleCallback (fun _ _ => Except.error e) data =
        [Effect.answerCallback, Effect.fetchWeather (decodeBot data).2 "",
         Effect.sendMessage callbackApology []] := by
      simp [handleCallback, callbackDispatch]
    rw [heq]
    constructor <;> simp [apologyCount, sendCount, isApologyEffect, isSendEffect]
  · intro text
    cases hrec : recognizedWeather text
    · simp [handleMessage, hrec]
    · by_cases hloc : (parseWeatherCommand text).1 = "" <;>
        simp [handleMessage, hrec, hloc]
  · intro data
    simp [handleCallback, callbackDispatch]

/-- Witness for `singleApologyOnFailure` at a concrete failing fetch. -/
theorem singleApologyOnFailure_witness :
    recognizedWeather "/weather Paris" = true
    ∧ (parseWeatherCommand "/weather Paris").1 ≠ ""
    ∧ apologyCount (handleMessage (fun _ _ => Except.error FetchError.schemaViolation) "/weather Paris") = 1
    ∧ sendCount (handleMessage (fun _ _ => Except.error FetchError.schemaViolation) "/weather Paris") = 1 :=
  ⟨by decide, by decide,
    (singleApologyOnFailure.1 FetchError.schemaViolation "/weather Paris" (by decide) (by decide)).1,
    (singleApologyOnFailure.1 FetchError.schemaViolation "/weather Paris" (by decide) (by decide)).2⟩

/-- Claim C9 (confirmed): every Model Client invocation made by the
callback handler carries the empty preferences string — the only
request datum that survives the round trip through the button payload
is the location — and such an invocation always happens. -/
theorem callbackPrefsAlwaysEmpty :
    (∀ (fetch : String → String → Except FetchError Output) (data loc prefs : String),
      Effect.fetchWeather loc prefs ∈ handleCallback fetch data → prefs = "")
  ∧ (∀ (fetch : String → String → Except FetchError Output) (data : String),
      Effect.fetchWeather (decodeBot data).2 "" ∈ handleCallback fetch data) := by
  have hdisp : ∀ (action location : String) (r : Except FetchError Output)
      (x : Effect), x ∈ callbackDispatch action location r → isSendEffect x = true := by
    intro action location r x hx
    rcases r with e | w
    · simp [callbackDispatch] at hx
      simp [hx, isSendEffect]
    · simp only [callbackDispatch] at hx
      repeat' split at hx
      all_goals simp_all [isSendEffect]
  constructor
  · intro fetch data loc prefs hmem
    unfold handleCallback at hmem
    rcases List.mem_cons.mp hmem with h | h
    · simp at h
    rcases List.mem_cons.mp h with h2 | h2
    · simp only [Effect.fetchWeather.injEq] at h2
      exact h2.2
    · have hs := hdisp _ _ _ _ h2
      simp [isSendEffect] at hs
  · intro fetch data
    unfold handleCallback
    simp

/-- Witness for `callbackPrefsAlwaysEmpty`: the membership hypothesis
is satisfiable at a concrete callback run. -/
theorem callbackPrefsAlwaysEmpty_witness :
    Effect.fetchWeather "Paris" "" ∈
      handleCallback (fun _ _ => Except.error FetchError.generationFailure) "today_Paris"
    ∧ ("" : String) = "" :=
  ⟨by decide,
    callbackPrefsAlwaysEmpty.1 (fun _ _ => Except.error FetchError.generationFailure)
      "today_Paris" "Paris" "" (by decide)⟩

/-- Claim C10 (confirmed): a message starting with `/w ` is treated as
a weather request, but `parseWeatherCommand` strips only the
`/weather` token, so the parsed location keeps the literal `/w`
prefix; that location is what reaches the Model Client, the prompt,
and every callback payload, and `/w Paris` parses to the location
`/w Paris`. -/
theorem slashWRequest (fetch : String → String → Except FetchError Output)
    (rest : String) :
    recognizedWeather ("/w " ++ rest) = true
  ∧ jsStartsWith (parseWeatherCommand ("/w " ++ rest)).1 "/w" = true
  ∧ (parseWeatherCommand ("/w " ++ rest)).1 ≠ ""
  ∧ Effect.fetchWeather (parseWeatherCommand ("/w " ++ rest)).1
      (parseWeatherCommand ("/w " ++ rest)).2 ∈ handleMessage fetch ("/w " ++ rest)
  ∧ (∀ w, fetch (parseWeatherCommand ("/w " ++ rest)).1
        (parseWeatherCommand ("/w " ++ rest)).2 = Except.ok w →
      Effect.sendMessage (formatWeatherMessage w)
          (weatherButtons (parseWeatherCommand ("/w " ++ rest)).1)
        ∈ handleMessage fetch ("/w " ++ rest))
  ∧ buildPrompt (parseWeatherCommand ("/w " ++ rest)).1 (parseWeatherCommand ("/w " ++ rest)).2
      = promptHead ++ (parseWeatherCommand ("/w " ++ rest)).1
        ++ ("\nPreferences: " ++ ((parseWeatherCommand ("/w " ++ rest)).2 ++ "\nDate: today\n"))
  ∧ (weatherButtons (parseWeatherCommand ("/w " ++ rest)).1).map Prod.snd
      = ["today_", "tomorrow_", "3days_", "clothes_", "activities_", "forecast_"].map
          (· ++ (parseWeatherCommand ("/w " ++ rest)).1)
  ∧ parseWeatherCommand "/w Paris" = ("/w Paris", "") := by
  have hdata : ("/w " ++ rest).data = '/' :: 'w' :: ' ' :: rest.data := by
    rw [String.data_append]
    rfl
  have hlowdata : (jsToLower ("/w " ++ rest)).data
      = '/' :: 'w' :: ' ' :: rest.data.map lowerAscii := by
    simp [jsToLower, hdata, show lowerAscii '/' = '/' from rfl,
      show lowerAscii 'w' = 'w' from rfl, show lowerAscii ' ' = ' ' from rfl]
  have hrec : recognizedWeather ("/w " ++ rest) = true := by
    have hsw : jsStartsWith (jsToLower ("/w " ++ rest)) "/w " = true := by
      rw [jsStartsWith_iff, hlowdata, show ("/w " : String).data = ['/', 'w', ' '] from rfl]
      simp [List.cons_prefix_cons]
    simp [recognizedWeather, hsw]
  have hnostrip : stripWeatherToken ("/w " ++ rest) = "/w " ++ rest := by
    have hns : ¬ (jsStartsWith (jsToLower ("/w " ++ rest)) "/weather" = true) := by
      rw [jsStartsWith_iff, hlowdata,
        show ("/weather" : String).data = ['/', 'w', 'e', 'a', 't', 'h', 'e', 'r'] from rfl]
      intro hpre
      obtain ⟨-, hpre⟩ := List.cons_prefix_cons.mp hpre
      obtain ⟨-, hpre⟩ := List.cons_prefix_cons.mp hpre
      obtain ⟨he, -⟩ := List.cons_prefix_cons.mp hpre
      exact absurd he (by decide)
    unfold stripWeatherToken
    rw [if_neg hns]
  have hcleandata : (jsTrim ("/w " ++ rest)).data
      = '/' :: 'w' :: trimEndChars (' ' :: rest.data) := by
    have htc : trimChars ('/' :: 'w' :: ' ' :: rest.data)
        = '/' :: 'w' :: trimEndChars (' ' :: rest.data) := by
      rw [trimChars, List.dropWhile_cons, if_neg (by decide),
        trimEndChars_cons _ _ (by decide), trimEndChars_cons _ _ (by decide)]
    simp [jsTrim, hdata, htc]
  have hH : (splitChars isDelim (jsTrim ("/w " ++ rest)).data).headD []
      = '/' :: 'w' :: List.takeWhile (fun c => !isDelim c) (trimEndChars (' ' :: rest.data)) := by
    rw [splitChars_headD, hcleandata, List.takeWhile_cons, if_pos (by decide),
      List.takeWhile_cons, if_pos (by decide)]
  have hmap : (jsSplit isDelim (jsTrim ("/w " ++ rest))).headD ""
      = ⟨(splitChars isDelim (jsTrim ("/w " ++ rest)).data).headD []⟩ := by
    unfold jsSplit
    rcases hS : splitChars isDelim (jsTrim ("/w " ++ rest)).data with _ | ⟨h, t⟩
    · exact absurd hS (splitChars_ne_nil _ _)
    · simp
  have hlocdata : (parseWeatherCommand ("/w " ++ rest)).1.data
      = '/' :: 'w' :: trimEndChars
          (List.takeWhile (fun c => !isDelim c) (trimEndChars (' ' :: rest.data))) := by
    simp only [parseWeatherCommand, hnostrip, hmap, hH]
    have htc2 : trimChars ('/' :: 'w' ::
        List.takeWhile (fun c => !isDelim c) (trimEndChars (' ' :: rest.data)))
        = '/' :: 'w' :: trimEndChars
            (List.takeWhile (fun c => !isDelim c) (trimEndChars (' ' :: rest.data))) := by
      rw [trimChars, List.dropWhile_cons, if_neg (by decide),
        trimEndChars_cons _ _ (by decide), trimEndChars_cons _ _ (by decide)]
    simp [jsTrim, htc2]
  have hswloc : jsStartsWith (parseWeatherCommand ("/w " ++ rest)).1 "/w" = true := by
    rw [jsStartsWith_iff, hlocdata, show ("/w" : String).data = ['/', 'w'] from rfl]
    simp [List.cons_prefix_cons]
  have hlocne : (parseWeatherCommand ("/w " ++ rest)).1 ≠ "" := by
    intro h
    have hd := (string_eq_empty_iff _).mp h
    rw [hlocdata] at hd
    simp at hd
  have hmsg : handleMessage fetch ("/w " ++ rest) =
      Effect.chatAction "typing" ::
      Effect.fetchWeather (parseWeatherCommand ("/w " ++ rest)).1
        (parseWeatherCommand ("/w " ++ rest)).2 ::
      (match fetch (parseWeatherCommand ("/w " ++ rest)).1
          (parseWeatherCommand ("/w " ++ rest)).2 with
       | .ok weatherData =>
         [Effect.sendMessage (formatWeatherMessage weatherData)
           (weatherButtons (parseWeatherCommand ("/w " ++ rest)).1)]
       | .error _ => [Effect.sendMessage apologyMessage []]) := by
    simp [handleMessage, hrec, hlocne]
  refine ⟨hrec, hswloc, hlocne, ?_, ?_, ?_, ?_, by decide⟩
  · rw [hmsg]
    simp
  · intro w hw
    rw [hmsg, hw]
    simp
  · simp [buildPrompt, str_append_assoc]
  · simp [weatherButtons]

/-- Witness for `slashWRequest` at the input `/w Paris` with a
successful fetch. -/
theorem slashWRequest_witness :
    Effect.sendMessage (formatWeatherMessage minimalReport)
        (weatherButtons (parseWeatherCommand ("/w " ++ "Paris")).1)
      ∈ handleMessage (fun _ _ => Except.ok minimalReport) ("/w " ++ "Paris") :=
  (slashWRequest (fun _ _ => Except.ok minimalReport) "Paris").2.2.2.2.1
    minimalReport rfl

/-- Claim C8 (confirmed): on a report with a 5-entry forecast the
summary's forecast section renders exactly the first three entries in
order, while the `forecast` callback action sends the full-forecast
message rendering all five entries in order. -/
theorem forecastTruncation (fetch : String → String → Except FetchError Output)
    (loc : String) (w : Output) (d0 d1 d2 d3 d4 : WeatherForecast)
    (hf : w.forecast = some [d0, d1, d2, d3, d4])
    (hfetch : fetch loc "" = Except.ok w) :
    formatWeatherMessage w =
      headerLine w.current_weather ++ "🌡️ **Current Conditions:**\n"
        ++ tempFrag w.current_weather ++ conditionFrag w.current_weather
        ++ humidityFrag w.current_weather ++ windFrag w.current_weather
        ++ ("\n📅 **Forecast (next 3 days):**\n"
            ++ (renderForecastDay d0 ++ renderForecastDay d1 ++ renderForecastDay d2))
        ++ clothingFrag w.clothing_suggestions
        ++ activityFrag w.activity_recommendations ++ tipsFrag w.current_weather
  ∧ handleCallback fetch ("forecast_" ++ loc) =
      [Effect.answerCallback, Effect.fetchWeather loc "",
       Effect.sendMessage (fullForecastMessage loc [d0, d1, d2, d3, d4]) []]
  ∧ fullForecastMessage loc [d0, d1, d2, d3, d4] =
      "📊 *Full Forecast for " ++ loc ++ ":*\n\n"
        ++ (renderForecastDay d0 ++ renderForecastDay d1 ++ renderForecastDay d2
            ++ renderForecastDay d3 ++ renderForecastDay d4) := by
  have hdec : decodeBot ("forecast_" ++ loc) = ("forecast", loc) := by
    have he : ("forecast_" ++ loc : String) = encodeCb "forecast" loc := by
      rw [encodeCb, show ("forecast" ++ "_" : String) = "forecast_" from by decide]
    rw [he]
    exact decodeBot_encodeCb "forecast" loc (by decide)
  refine ⟨?_, ?_, ?_⟩
  · simp [formatWeatherMessage, forecastFrag, hf, String.join, str_empty_append,
      str_append_assoc]
  · have hdisp : callbackDispatch "forecast" loc (Except.ok w) =
        [Effect.sendMessage (fullForecastMessage loc [d0, d1, d2, d3, d4]) []] := by
      unfold callbackDispatch
      dsimp only
      rw [if_neg (show ¬ (("forecast" : String) = "today") from by decide),
        if_neg (show ¬ (("forecast" : String) = "tomorrow") from by decide),
        if_neg (show ¬ (("forecast" : String) = "3days") from by decide),
        if_neg (show ¬ (("forecast" : String) = "clothes") from by decide),
        if_neg (show ¬ (("forecast" : String) = "activities") from by decide),
        if_pos rfl,
        if_pos (show jsTruthyList w.forecast = true from by simp [jsTruthyList, hf])]
      simp [hf]
    unfold handleCallback
    rw [hdec]
    simp only [hfetch, hdisp]
  · simp [fullForecastMessage, String.join, List.map, List.foldl, str_empty_append,
      str_append_assoc]

/-- Witness for `forecastTruncation` at the concrete 5-day report. -/
theorem forecastTruncation_witness :
    handleCallback (fun _ _ => Except.ok fiveDayReport) ("forecast_" ++ "Kyoto")
      = [Effect.answerCallback, Effect.fetchWeather "Kyoto" "",
         Effect.sendMessage
           (fullForecastMessage "Kyoto"
             [{ date := "Mon", high_temp := 22, low_temp := 14, condition := "Sunny" },
              { date := "Tue", high_temp := 20, low_temp := 13, condition := "Cloudy" },
              { date := "Wed", high_temp := 19, low_temp := 12, condition := "Rain" },
              { date := "Thu", high_temp := 23, low_temp := 15, condition := "Sunny" },
              { date := "Fri", high_temp := 24, low_temp := 16, condition := "Clear" }]) []] :=
  (forecastTruncation (fun _ _ => Except.ok fiveDayReport) "Kyoto" fiveDayReport
    _ _ _ _ _ rfl rfl).2.1
